import Mathlib

/-!
Shallow embedding of the AQUASOLAR Flask backend (src/app.py): the per-account
throttling cache, the Firestore-backed subcollections (sensor_logs, power_logs,
control_logs, alerts, consumption, commands, realtime_status) and the three
ESP32 endpoints `esp32_status_update`, `esp32_get_command`, `esp32_command_ack`,
together with the helpers `is_significant_change`, `update_consumption_batch`,
`is_esp32_online` and `set_command`.

Numeric sensor values are modelled as rationals; wall-clock instants
(`time.time()`, Firestore timestamps) as rationals as well.  A Python value
that may be absent from a dict is an `Option`.  Each Firestore write is a pure
update of a `TenantState`; list-valued subcollections accumulate entries at
the head (most recent first).
-/

namespace AquaSolar

/-- Per-account throttling cache, as created by `get_account_cache`
(app.py lines 45-54): three last-write times all starting at `0` and a
`last_logged_values` dict starting empty.  The dict only ever holds the keys
`flow_in_L_min`, `battery_percent` and `leakage_detected`, so it is modelled
by three `Option` fields (a `none` field is an absent key). -/
structure Cache where
  last_sensor_log_time : ℚ
  last_power_log_time : ℚ
  last_consumption_update_time : ℚ
  lv_flow_in_L_min : Option ℚ
  lv_battery_percent : Option ℚ
  lv_leakage_detected : Option Bool
deriving DecidableEq, Repr

/-- Fresh cache for an account not seen before (app.py lines 47-53). -/
def initial_cache : Cache :=
  { last_sensor_log_time := 0
    last_power_log_time := 0
    last_consumption_update_time := 0
    lv_flow_in_L_min := none
    lv_battery_percent := none
    lv_leakage_detected := none }

/-- Thresholds for significant changes (app.py lines 57-59). -/
def FLOW_CHANGE_THRESHOLD : ℚ := 1/2

def BATTERY_CHANGE_THRESHOLD : ℚ := 5

/-- Logging intervals in seconds (app.py lines 62-64). -/
def SENSOR_LOG_INTERVAL : ℚ := 300

def POWER_LOG_INTERVAL : ℚ := 600

def CONSUMPTION_UPDATE_INTERVAL : ℚ := 1800

/-- `is_significant_change(new_value, old_value, threshold)` (app.py
lines 100-104): true when there is no prior value, otherwise true iff
`abs(new_value - old_value) >= threshold`. -/
def is_significant_change (new_value : ℚ) (old_value : Option ℚ) (threshold : ℚ) : Bool :=
  match old_value with
  | none => true
  | some old => decide (|new_value - old| ≥ threshold)

/-- Entry of the `sensor_logs` subcollection (app.py `add_sensor_log`,
lines 106-119; the generated uuid and server timestamp are not modelled). -/
structure SensorLog where
  sensor_id_fk : String
  reading_value : ℚ
  unit : String
deriving DecidableEq, Repr

/-- Entry of the `power_logs` subcollection (app.py `add_power_log`,
lines 136-149). -/
structure PowerLog where
  power_level_V : ℚ
  current_A : ℚ
  battery_percent : ℚ
deriving DecidableEq, Repr

/-- Entry of the `control_logs` subcollection (app.py `add_control_log`,
lines 121-134). -/
structure ControlLog where
  action : String
  method : String
deriving DecidableEq, Repr

/-- Entry of the `alerts` subcollection (app.py `add_alert`, lines 151-164);
alerts are created with status "Active". -/
structure Alert where
  alert_type : String
  details : String
  status : String
deriving DecidableEq, Repr

/-- Per-day consumption document (app.py `update_consumption_batch`,
lines 166-192). -/
structure ConsumptionRecord where
  consumption_total : ℚ
  pump_cycles : ℕ
deriving DecidableEq, Repr

/-- The `consumption` subcollection: documents keyed by ISO date string. -/
abbrev ConsumptionStore := List (String × ConsumptionRecord)

/-- Firestore document lookup by id in the consumption subcollection. -/
def consLookup (day : String) : ConsumptionStore → Option ConsumptionRecord
  | [] => none
  | (k, r) :: rest => if k = day then some r else consLookup day rest

/-- Firestore document write (set or in-place replace) by id. -/
def consSet (day : String) (r : ConsumptionRecord) : ConsumptionStore → ConsumptionStore
  | [] => [(day, r)]
  | (k, q) :: rest => if k = day then (k, r) :: rest else (k, q) :: consSet day r rest

/-- `update_consumption_batch(volume_in, pump_cycles)` (app.py lines 166-192):
if a document for `today` exists it is updated with the Firestore atomic
`Increment` on both `consumption_total` and `pump_cycles`; otherwise a new
document is created with `consumption_total = volume_in` and the given cycle
count.  The Python default for `pump_cycles` is `1`; callers here pass it
explicitly. -/
def update_consumption_batch (volume_in : ℚ) (pump_cycles : ℕ) (today : String)
    (store : ConsumptionStore) : ConsumptionStore :=
  match consLookup today store with
  | some r =>
      consSet today
        { consumption_total := r.consumption_total + volume_in
          pump_cycles := r.pump_cycles + pump_cycles } store
  | none =>
      consSet today
        { consumption_total := volume_in, pump_cycles := pump_cycles } store

/-- The `commands/control` mailbox document (app.py `set_command`,
lines 302-312). -/
structure Command where
  action : String
  status : String
deriving DecidableEq, Repr

/-- The `realtime_status/current` snapshot, restricted to the fields the
liveness check reads (app.py lines 194-226 and 282-289). -/
structure RealtimeStatus where
  last_update : Option ℚ
  esp32_online : Bool
deriving DecidableEq, Repr

/-- `is_esp32_online` (app.py lines 194-226): false when no snapshot exists or
it has no `last_update`; otherwise true iff `now - last_update < 60` seconds.
The timezone normalisation in the Python body does not change the instant. -/
def is_esp32_online (status : Option RealtimeStatus) (now : ℚ) : Bool :=
  match status with
  | none => false
  | some st =>
    match st.last_update with
    | none => false
    | some last_update => decide (now - last_update < 60)

/-- All Firestore state of one account (tenant) plus its in-process cache. -/
structure TenantState where
  cache : Cache
  sensor_logs : List SensorLog
  power_logs : List PowerLog
  control_logs : List ControlLog
  alerts : List Alert
  consumption : ConsumptionStore
  command : Option Command
  realtime : Option RealtimeStatus
deriving DecidableEq, Repr

/-- A tenant with no documents yet and a fresh cache. -/
def initTenant : TenantState :=
  { cache := initial_cache
    sensor_logs := []
    power_logs := []
    control_logs := []
    alerts := []
    consumption := []
    command := none
    realtime := none }

/-- The JSON body of an ESP32 telemetry push, restricted to the keys
`esp32_status_update` reads (a `none` field is an absent key). -/
structure PushData where
  flow_in_L_min : Option ℚ
  battery_voltage_V : Option ℚ
  current_A : Option ℚ
  battery_percent : Option ℚ
  leakage_detected : Option Bool
  volume_in_L : Option ℚ
deriving DecidableEq, Repr

/-- A push carrying none of the telemetry keys. -/
def emptyPush : PushData :=
  { flow_in_L_min := none
    battery_voltage_V := none
    current_A := none
    battery_percent := none
    leakage_detected := none
    volume_in_L := none }

/-- `update_realtime_status` (app.py lines 282-289): merge-writes the push
into `realtime_status/current`, stamping `last_update` with the server time
and `esp32_online = True`. -/
def update_realtime_status_step (now : ℚ) (s : TenantState) : TenantState :=
  { s with realtime := some { last_update := some now, esp32_online := true } }

/-- Sensor-log block of `esp32_status_update` (app.py lines 859-880): when the
push carries `flow_in_L_min`, append a sensor log iff the 300 s interval has
elapsed or the flow changed significantly; on a write, refresh
`last_sensor_log_time` and the last logged flow. -/
def sensorStep (data : PushData) (now : ℚ) (s : TenantState) : TenantState :=
  match data.flow_in_L_min with
  | none => s
  | some f =>
    let should_log_sensor :=
      decide (now - s.cache.last_sensor_log_time ≥ SENSOR_LOG_INTERVAL)
        || is_significant_change f s.cache.lv_flow_in_L_min FLOW_CHANGE_THRESHOLD
    if should_log_sensor then
      { s with
        sensor_logs :=
          { sensor_id_fk := "SENS_FLOW_IN", reading_value := f, unit := "L/min" }
            :: s.sensor_logs
        cache :=
          { s.cache with
            last_sensor_log_time := now
            lv_flow_in_L_min := some f } }
    else s

/-- Power-log block of `esp32_status_update` (app.py lines 883-909): when the
push carries all of `battery_voltage_V`, `current_A` and `battery_percent`,
append a power log iff the 600 s interval has elapsed or the battery percent
changed significantly; on a write, refresh `last_power_log_time` and the last
logged battery percent. -/
def powerStep (data : PushData) (now : ℚ) (s : TenantState) : TenantState :=
  match data.battery_voltage_V, data.current_A, data.battery_percent with
  | some v, some c, some bp =>
    let should_log_power :=
      decide (now - s.cache.last_power_log_time ≥ POWER_LOG_INTERVAL)
        || is_significant_change bp s.cache.lv_battery_percent BATTERY_CHANGE_THRESHOLD
    if should_log_power then
      { s with
        power_logs :=
          { power_level_V := v, current_A := c, battery_percent := bp } :: s.power_logs
        cache :=
          { s.cache with
            last_power_log_time := now
            lv_battery_percent := some bp } }
    else s
  | _, _, _ => s

/-- Leakage-alert block of `esp32_status_update` (app.py lines 913-918): alert
when the push reports leakage and the stored previous leakage state was false;
then store the pushed value unconditionally. -/
def leakageStep (data : PushData) (s : TenantState) : TenantState :=
  let leak := data.leakage_detected.getD false
  let s1 :=
    if leak = true ∧ s.cache.lv_leakage_detected.getD false = false then
      { s with
        alerts :=
          { alert_type := "Leakage"
            details := "Flow differential exceeded threshold"
            status := "Active" } :: s.alerts }
    else s
  { s1 with cache := { s1.cache with lv_leakage_detected := some leak } }

/-- Low-battery-alert block of `esp32_status_update` (app.py lines 921-924):
alert when the pushed battery percent (default 100) is at most 10 and the
stored previous value (default 100) is above 10.  It reads the cache as left
by the power-log block of the same request. -/
def batteryAlertStep (data : PushData) (s : TenantState) : TenantState :=
  if data.battery_percent.getD 100 ≤ 10 ∧ s.cache.lv_battery_percent.getD 100 > 10 then
    { s with
      alerts :=
        { alert_type := "Low Battery"
          details := "Battery at " ++ toString (data.battery_percent.getD 100) ++ "%"
          status := "Active" } :: s.alerts }
  else s

/-- Consumption block of `esp32_status_update` (app.py lines 927-931): when
the push carries `volume_in_L` and the 1800 s interval has elapsed, run
`update_consumption_batch` (with the Python-default cycle count 1) and refresh
`last_consumption_update_time`. -/
def consumptionStep (data : PushData) (now : ℚ) (today : String) (s : TenantState) :
    TenantState :=
  match data.volume_in_L with
  | none => s
  | some v =>
    if now - s.cache.last_consumption_update_time ≥ CONSUMPTION_UPDATE_INTERVAL then
      { s with
        consumption := update_consumption_batch v 1 today s.consumption
        cache := { s.cache with last_consumption_update_time := now } }
    else s

/-- Result of the `/api/esp32/status` endpoint: an HTTP error, or `ok` with an
optional pending command action. -/
inductive PushResponse where
  | error (message : String) (code : ℕ)
  | ok (command : Option String)
deriving DecidableEq, Repr

/-- Pending-command check at the end of `esp32_status_update` (app.py
lines 933-938). -/
def pendingCommand (s : TenantState) : Option String :=
  match s.command with
  | none => none
  | some cmd => if cmd.status = "pending" then some cmd.action else none

/-- Body of `esp32_status_update` for one tenant (app.py lines 852-940),
blocks in source order: realtime snapshot, sensor log, power log, leakage
alert, low-battery alert, consumption, pending-command check. -/
def esp32_status_body (data : PushData) (now : ℚ) (today : String) (s : TenantState) :
    PushResponse × TenantState :=
  let s1 := update_realtime_status_step now s
  let s2 := sensorStep data now s1
  let s3 := powerStep data now s2
  let s4 := leakageStep data s3
  let s5 := batteryAlertStep data s4
  let s6 := consumptionStep data now today s5
  (PushResponse.ok (pendingCommand s6), s6)

/-- The server keeps one `TenantState` per account id. -/
def ServerState := String → TenantState

/-- Replace the state of one account, leaving every other account untouched. -/
def updateTenant (st : ServerState) (id : String) (t : TenantState) : ServerState :=
  fun a => if a = id then t else st a

/-- `/api/esp32/status` handler (app.py lines 834-944): a request with no
`account_id` (in body or query) is rejected with a 400 error before any state
is read or written. -/
def esp32_status_update (account_id : Option String) (data : PushData) (now : ℚ)
    (today : String) (st : ServerState) : PushResponse × ServerState :=
  match account_id with
  | none => (PushResponse.error "account_id is required" 400, st)
  | some id =>
    let r := esp32_status_body data now today (st id)
    (r.1, updateTenant st id r.2)

/-- Result of the `/api/esp32/command` endpoint. -/
inductive CommandResponse where
  | error (message : String) (code : ℕ)
  | command (action : String)
deriving DecidableEq, Repr

/-- Body of `esp32_get_command` for one tenant (app.py lines 956-965): when a
command document exists with status `pending`, mark it `delivered` and return
its action; otherwise return the sentinel "NONE" and change nothing. -/
def esp32_get_command_body (s : TenantState) : CommandResponse × TenantState :=
  match s.command with
  | none => (CommandResponse.command "NONE", s)
  | some cmd =>
    if cmd.status = "pending" then
      (CommandResponse.command cmd.action,
        { s with command := some { cmd with status := "delivered" } })
    else
      (CommandResponse.command "NONE", s)

/-- `/api/esp32/command` handler (app.py lines 946-969): rejects a missing
`account_id` with a 400 error before touching any state. -/
def esp32_get_command (account_id : Option String) (st : ServerState) :
    CommandResponse × ServerState :=
  match account_id with
  | none => (CommandResponse.error "account_id is required" 400, st)
  | some id =>
    let r := esp32_get_command_body (st id)
    (r.1, updateTenant st id r.2)

/-- Result of the `/api/esp32/command/ack` endpoint. -/
inductive AckResponse where
  | error (message : String) (code : ℕ)
  | acknowledged
deriving DecidableEq, Repr

/-- Body of `esp32_command_ack` for one tenant (app.py lines 975-990): mark
the command document `executed` and append one control log with method
"Remote" and the action from the request body (default "Unknown").  A missing
command document makes the Firestore `update` raise, which the handler turns
into a 500 error with no state change. -/
def esp32_command_ack_body (action : Option String) (s : TenantState) :
    AckResponse × TenantState :=
  let act := action.getD "Unknown"
  match s.command with
  | none => (AckResponse.error "no command document to update" 500, s)
  | some cmd =>
    (AckResponse.acknowledged,
      { s with
        command := some { cmd with status := "executed" }
        control_logs := { action := act, method := "Remote" } :: s.control_logs })

/-- `/api/esp32/command/ack` handler (app.py lines 971-994): rejects a missing
`account_id` with a 400 error before touching any state. -/
def esp32_command_ack (account_id : Option String) (action : Option String)
    (st : ServerState) : AckResponse × ServerState :=
  match account_id with
  | none => (AckResponse.error "account_id is required" 400, st)
  | some id =>
    let r := esp32_command_ack_body action (st id)
    (r.1, updateTenant st id r.2)

/-- `set_command(action)` (app.py lines 302-312): the operator overwrites the
`commands/control` document with the action and status `pending`. -/
def set_command (action : String) (s : TenantState) : TenantState :=
  { s with command := some { action := action, status := "pending" } }

/-- Number of alerts of a given type in the alerts subcollection. -/
def alertCount (ty : String) (l : List Alert) : ℕ :=
  (l.filter (fun a => a.alert_type = ty)).length

/-- Run a sequence of pushes (each with its own wall-clock time) through the
status endpoint body for one tenant. -/
def runPushes (today : String) : List (PushData × ℚ) → TenantState → TenantState
  | [], s => s
  | (d, t) :: rest, s => runPushes today rest (esp32_status_body d t today s).2

/-! ### Helper lemmas: step characterizations and frame conditions -/

/-- `is_significant_change` spelled out over the shape of the old value. -/
theorem is_significant_change_iff (n t : ℚ) (o : Option ℚ) :
    is_significant_change n o t = true ↔
      o = none ∨ ∃ old, o = some old ∧ |n - old| ≥ t := by
  cases o <;> simp [is_significant_change]

theorem update_realtime_cache (now : ℚ) (s : TenantState) :
    (update_realtime_status_step now s).cache = s.cache := rfl

theorem update_realtime_frame (now : ℚ) (s : TenantState) :
    (update_realtime_status_step now s).sensor_logs = s.sensor_logs ∧
    (update_realtime_status_step now s).power_logs = s.power_logs ∧
    (update_realtime_status_step now s).control_logs = s.control_logs ∧
    (update_realtime_status_step now s).alerts = s.alerts ∧
    (update_realtime_status_step now s).consumption = s.consumption ∧
    (update_realtime_status_step now s).command = s.command :=
  ⟨rfl, rfl, rfl, rfl, rfl, rfl⟩

theorem sensorStep_none (data : PushData) (now : ℚ) (s : TenantState)
    (hf : data.flow_in_L_min = none) : sensorStep data now s = s := by
  unfold sensorStep; rw [hf]

theorem sensorStep_some (data : PushData) (now : ℚ) (s : TenantState) (f : ℚ)
    (hf : data.flow_in_L_min = some f) :
    sensorStep data now s =
      if (decide (now - s.cache.last_sensor_log_time ≥ SENSOR_LOG_INTERVAL)
            || is_significant_change f s.cache.lv_flow_in_L_min FLOW_CHANGE_THRESHOLD) = true
      then { s with
              sensor_logs :=
                { sensor_id_fk := "SENS_FLOW_IN", reading_value := f, unit := "L/min" }
                  :: s.sensor_logs
              cache :=
                { s.cache with
                  last_sensor_log_time := now
                  lv_flow_in_L_min := some f } }
      else s := by
  unfold sensorStep; rw [hf]

theorem sensorStep_frame (data : PushData) (now : ℚ) (s : TenantState) :
    (sensorStep data now s).power_logs = s.power_logs ∧
    (sensorStep data now s).control_logs = s.control_logs ∧
    (sensorStep data now s).alerts = s.alerts ∧
    (sensorStep data now s).consumption = s.consumption ∧
    (sensorStep data now s).command = s.command ∧
    (sensorStep data now s).cache.last_power_log_time = s.cache.last_power_log_time ∧
    (sensorStep data now s).cache.last_consumption_update_time
      = s.cache.last_consumption_update_time ∧
    (sensorStep data now s).cache.lv_battery_percent = s.cache.lv_battery_percent ∧
    (sensorStep data now s).cache.lv_leakage_detected = s.cache.lv_leakage_detected := by
  unfold sensorStep
  cases data.flow_in_L_min <;> dsimp only <;> [skip; split_ifs] <;> simp

theorem powerStep_skip (data : PushData) (now : ℚ) (s : TenantState)
    (h : data.battery_voltage_V = none ∨ data.current_A = none ∨
      data.battery_percent = none) :
    powerStep data now s = s := by
  unfold powerStep
  cases hv : data.battery_voltage_V <;> cases hc : data.current_A <;>
    cases hb : data.battery_percent <;> simp_all

theorem powerStep_some (data : PushData) (now : ℚ) (s : TenantState) (v c bp : ℚ)
    (hv : data.battery_voltage_V = some v) (hc : data.current_A = some c)
    (hb : data.battery_percent = some bp) :
    powerStep data now s =
      if (decide (now - s.cache.last_power_log_time ≥ POWER_LOG_INTERVAL)
            || is_significant_change bp s.cache.lv_battery_percent
                BATTERY_CHANGE_THRESHOLD) = true
      then { s with
              power_logs :=
                { power_level_V := v, current_A := c, battery_percent := bp }
                  :: s.power_logs
              cache :=
                { s.cache with
                  last_power_log_time := now
                  lv_battery_percent := some bp } }
      else s := by
  unfold powerStep; rw [hv, hc, hb]

theorem powerStep_frame (data : PushData) (now : ℚ) (s : TenantState) :
    (powerStep data now s).sensor_logs = s.sensor_logs ∧
    (powerStep data now s).control_logs = s.control_logs ∧
    (powerStep data now s).alerts = s.alerts ∧
    (powerStep data now s).consumption = s.consumption ∧
    (powerStep data now s).command = s.command ∧
    (powerStep data now s).cache.last_sensor_log_time = s.cache.last_sensor_log_time ∧
    (powerStep data now s).cache.last_consumption_update_time
      = s.cache.last_consumption_update_time ∧
    (powerStep data now s).cache.lv_flow_in_L_min = s.cache.lv_flow_in_L_min ∧
    (powerStep data now s).cache.lv_leakage_detected = s.cache.lv_leakage_detected := by
  unfold powerStep
  cases data.battery_voltage_V <;> cases data.current_A <;> cases data.battery_percent <;>
    dsimp only <;> (try split_ifs) <;> simp

theorem leakageStep_eq (data : PushData) (s : TenantState) :
    leakageStep data s =
      if data.leakage_detected.getD false = true ∧
          s.cache.lv_leakage_detected.getD false = false
      then { s with
              alerts :=
                { alert_type := "Leakage"
                  details := "Flow differential exceeded threshold"
                  status := "Active" } :: s.alerts
              cache :=
                { s.cache with
                  lv_leakage_detected := some (data.leakage_detected.getD false) } }
      else { s with
              cache :=
                { s.cache with
                  lv_leakage_detected := some (data.leakage_detected.getD false) } } := by
  unfold leakageStep
  dsimp only
  split_ifs <;> rfl

theorem leakageStep_frame (data : PushData) (s : TenantState) :
    (leakageStep data s).sensor_logs = s.sensor_logs ∧
    (leakageStep data s).power_logs = s.power_logs ∧
    (leakageStep data s).control_logs = s.control_logs ∧
    (leakageStep data s).consumption = s.consumption ∧
    (leakageStep data s).command = s.command ∧
    (leakageStep data s).cache.last_sensor_log_time = s.cache.last_sensor_log_time ∧
    (leakageStep data s).cache.last_power_log_time = s.cache.last_power_log_time ∧
    (leakageStep data s).cache.last_consumption_update_time
      = s.cache.last_consumption_update_time ∧
    (leakageStep data s).cache.lv_flow_in_L_min = s.cache.lv_flow_in_L_min ∧
    (leakageStep data s).cache.lv_battery_percent = s.cache.lv_battery_percent := by
  rw [leakageStep_eq]
  split_ifs <;> simp

theorem batteryAlertStep_eq (data : PushData) (s : TenantState) :
    batteryAlertStep data s =
      if data.battery_percent.getD 100 ≤ 10 ∧ s.cache.lv_battery_percent.getD 100 > 10
      then { s with
              alerts :=
                { alert_type := "Low Battery"
                  details := "Battery at " ++ toString (data.battery_percent.getD 100) ++ "%"
                  status := "Active" } :: s.alerts }
      else s := rfl

theorem batteryAlertStep_frame (data : PushData) (s : TenantState) :
    (batteryAlertStep data s).sensor_logs = s.sensor_logs ∧
    (batteryAlertStep data s).power_logs = s.power_logs ∧
    (batteryAlertStep data s).control_logs = s.control_logs ∧
    (batteryAlertStep data s).consumption = s.consumption ∧
    (batteryAlertStep data s).command = s.command ∧
    (batteryAlertStep data s).cache = s.cache := by
  rw [batteryAlertStep_eq]
  split_ifs <;> simp

theorem consumptionStep_none (data : PushData) (now : ℚ) (today : String)
    (s : TenantState) (hv : data.volume_in_L = none) :
    consumptionStep data now today s = s := by
  unfold consumptionStep; rw [hv]

theorem consumptionStep_some (data : PushData) (now : ℚ) (today : String)
    (s : TenantState) (v : ℚ) (hv : data.volume_in_L = some v) :
    consumptionStep data now today s =
      if now - s.cache.last_consumption_update_time ≥ CONSUMPTION_UPDATE_INTERVAL
      then { s with
              consumption := update_consumption_batch v 1 today s.consumption
              cache := { s.cache with last_consumption_update_time := now } }
      else s := by
  unfold consumptionStep; rw [hv]

theorem consumptionStep_frame (data : PushData) (now : ℚ) (today : String)
    (s : TenantState) :
    (consumptionStep data now today s).sensor_logs = s.sensor_logs ∧
    (consumptionStep data now today s).power_logs = s.power_logs ∧
    (consumptionStep data now today s).control_logs = s.control_logs ∧
    (consumptionStep data now today s).alerts = s.alerts ∧
    (consumptionStep data now today s).command = s.command ∧
    (consumptionStep data now today s).cache.last_sensor_log_time
      = s.cache.last_sensor_log_time ∧
    (consumptionStep data now today s).cache.last_power_log_time
      = s.cache.last_power_log_time ∧
    (consumptionStep data now today s).cache.lv_flow_in_L_min
      = s.cache.lv_flow_in_L_min ∧
    (consumptionStep data now today s).cache.lv_battery_percent
      = s.cache.lv_battery_percent ∧
    (consumptionStep data now today s).cache.lv_leakage_detected
      = s.cache.lv_leakage_detected := by
  unfold consumptionStep
  cases data.volume_in_L <;> dsimp only <;> [skip; split_ifs] <;> simp

/-- The state after the status-endpoint body, written as the step composition. -/
theorem esp32_status_body_state (data : PushData) (now : ℚ) (today : String)
    (s : TenantState) :
    (esp32_status_body data now today s).2 =
      consumptionStep data now today
        (batteryAlertStep data
          (leakageStep data
            (powerStep data now
              (sensorStep data now (update_realtime_status_step now s))))) := rfl

theorem consLookup_consSet (day : String) (r : ConsumptionRecord) :
    ∀ store : ConsumptionStore, consLookup day (consSet day r store) = some r
  | [] => by simp [consSet, consLookup]
  | (k, q) :: rest => by
    by_cases h : k = day
    · simp [consSet, consLookup, h]
    · simp [consSet, consLookup, h, consLookup_consSet day r rest]

theorem update_consumption_batch_existing (v : ℚ) (c : ℕ) (day : String)
    (store : ConsumptionStore) (r : ConsumptionRecord)
    (h : consLookup day store = some r) :
    consLookup day (update_consumption_batch v c day store) =
      some { consumption_total := r.consumption_total + v
             pump_cycles := r.pump_cycles + c } := by
  unfold update_consumption_batch
  rw [h]
  exact consLookup_consSet day _ store

theorem update_consumption_batch_new (v : ℚ) (c : ℕ) (day : String)
    (store : ConsumptionStore) (h : consLookup day store = none) :
    consLookup day (update_consumption_batch v c day store) =
      some { consumption_total := v, pump_cycles := c } := by
  unfold update_consumption_batch
  rw [h]
  exact consLookup_consSet day _ store

/-- `leakageStep` always stores the pushed leakage value (default false). -/
theorem leakageStep_lv (data : PushData) (s : TenantState) :
    (leakageStep data s).cache.lv_leakage_detected =
      some (data.leakage_detected.getD false) := by
  rw [leakageStep_eq]
  split_ifs <;> rfl

/-! ### Claims -/

/-- C1: Command mailbox lifecycle: after the operator writes a command with
action ON and status pending, a field-unit poll returns the action ON and
transitions the mailbox status to delivered; a second immediate poll returns
the sentinel "NONE" and does not change the mailbox; a subsequent
acknowledgement transitions the status to executed and appends exactly one
control log entry with method "Remote". -/
theorem command_mailbox_lifecycle (s : TenantState) :
    let s1 := set_command "ON" s
    let poll1 := esp32_get_command_body s1
    let poll2 := esp32_get_command_body poll1.2
    let ack := esp32_command_ack_body (some "ON") poll2.2
    poll1.1 = CommandResponse.command "ON" ∧
    poll1.2.command = some { action := "ON", status := "delivered" } ∧
    poll2.1 = CommandResponse.command "NONE" ∧
    poll2.2 = poll1.2 ∧
    poll2.2.control_logs = s.control_logs ∧
    ack.1 = AckResponse.acknowledged ∧
    ack.2.command = some { action := "ON", status := "executed" } ∧
    ack.2.control_logs =
      [{ action := "ON", method := "Remote" }] ++ poll2.2.control_logs := by
  intro s1 poll1 poll2 ack
  exact ⟨rfl, rfl, rfl, rfl, rfl, rfl, rfl, rfl⟩

/-- C6: Concurrent consumption updates lose no increment: two consumption
updates of +5.0 L and +3.2 L for the same tenant on the same day, each applied
through the store-level atomic increment (the document-exists branch of
`update_consumption_batch`), yield in either interleaving order a final total
of +8.2 L and pump_cycles incremented by 2, never 5.0 or 3.2 alone. -/
theorem concurrent_consumption_no_lost_update (day : String)
    (store : ConsumptionStore) (r : ConsumptionRecord)
    (h : consLookup day store = some r) :
    consLookup day
        (update_consumption_batch (16/5) 1 day
          (update_consumption_batch 5 1 day store)) =
      some { consumption_total := r.consumption_total + 41/5
             pump_cycles := r.pump_cycles + 2 } ∧
    consLookup day
        (update_consumption_batch 5 1 day
          (update_consumption_batch (16/5) 1 day store)) =
      some { consumption_total := r.consumption_total + 41/5
             pump_cycles := r.pump_cycles + 2 } ∧
    r.consumption_total + 41/5 ≠ r.consumption_total + 5 ∧
    r.consumption_total + 41/5 ≠ r.consumption_total + 16/5 := by
  have h1 := update_consumption_batch_existing 5 1 day store r h
  have h2 := update_consumption_batch_existing (16/5) 1 day _ _ h1
  have h3 := update_consumption_batch_existing (16/5) 1 day store r h
  have h4 := update_consumption_batch_existing 5 1 day _ _ h3
  refine ⟨?_, ?_, ?_, ?_⟩
  · rw [h2]
    simp only [Option.some.injEq, ConsumptionRecord.mk.injEq]
    constructor
    · ring_nf
    · trivial
  · rw [h4]
    simp only [Option.some.injEq, ConsumptionRecord.mk.injEq]
    constructor
    · ring_nf
    · trivial
  · intro hEq
    have := add_left_cancel hEq
    norm_num at this
  · intro hEq
    have := add_left_cancel hEq
    norm_num at this

/-- Witness for C6 at a store holding a zero record for the day. -/
theorem concurrent_consumption_no_lost_update_witness :
    consLookup "2026-01-01"
        (update_consumption_batch (16/5) 1 "2026-01-01"
          (update_consumption_batch 5 1 "2026-01-01"
            [("2026-01-01", { consumption_total := 0, pump_cycles := 0 })])) =
      some { consumption_total := 41/5, pump_cycles := 2 } := by
  have h := concurrent_consumption_no_lost_update "2026-01-01"
      [("2026-01-01", { consumption_total := 0, pump_cycles := 0 })]
      { consumption_total := 0, pump_cycles := 0 } rfl
  simpa using h.1

/-- C7: `is_significant_change` returns true whenever the old value is absent,
and otherwise returns true iff the absolute difference reaches the threshold;
it is a total pure function of its three arguments. -/
theorem is_significant_change_spec :
    (∀ n t : ℚ, is_significant_change n none t = true) ∧
    (∀ n o t : ℚ, is_significant_change n (some o) t = decide (|n - o| ≥ t)) :=
  ⟨fun _ _ => rfl, fun _ _ _ => rfl⟩

/-- C8: the online check returns true iff a status snapshot exists, it has a
`last_update` timestamp, and `now - last_update` is strictly below 60 seconds;
a snapshot 30 s old reports online, one 90 s old reports offline, and a
missing snapshot or missing `last_update` reports offline. -/
theorem is_esp32_online_spec :
    (∀ now : ℚ, is_esp32_online none now = false) ∧
    (∀ (now : ℚ) (b : Bool),
      is_esp32_online (some { last_update := none, esp32_online := b }) now = false) ∧
    (∀ (now lu : ℚ) (b : Bool),
      is_esp32_online (some { last_update := some lu, esp32_online := b }) now =
        decide (now - lu < 60)) ∧
    (∀ (now : ℚ) (b : Bool),
      is_esp32_online (some { last_update := some (now - 30), esp32_online := b }) now
        = true) ∧
    (∀ (now : ℚ) (b : Bool),
      is_esp32_online (some { last_update := some (now - 90), esp32_online := b }) now
        = false) := by
  refine ⟨fun _ => rfl, fun _ _ => rfl, fun _ _ _ => rfl, ?_, ?_⟩
  · intro now b
    show decide (now - (now - 30) < 60) = true
    rw [show now - (now - 30) = (30:ℚ) from by ring]
    decide
  · intro now b
    show decide (now - (now - 90) < 60) = false
    rw [show now - (now - 90) = (90:ℚ) from by ring]
    decide

/-- C9: every field-unit request (telemetry push, command poll, command
acknowledgement) carrying no account id is rejected with an explicit 400
error, and the server state is completely unchanged: no default or guessed
tenant is ever written. -/
theorem missing_account_id_rejected :
    ∀ (data : PushData) (now : ℚ) (today : String) (action : Option String)
      (st : ServerState),
      esp32_status_update none data now today st =
        (PushResponse.error "account_id is required" 400, st) ∧
      esp32_get_command none st =
        (CommandResponse.error "account_id is required" 400, st) ∧
      esp32_command_ack none action st =
        (AckResponse.error "account_id is required" 400, st) :=
  fun _ _ _ _ _ => ⟨rfl, rfl, rfl⟩

/-- C2: Throttled sensor logging: for every push that carries `flow_in_L_min`,
a sensor log entry is appended iff 300 s have elapsed since the last sensor
log or the flow differs from the last logged flow by at least 0.5 L/min (or
no flow was ever logged); on a write, `last_sensor_log_time` is set to now and
the last logged flow to the new value; otherwise both cache fields and the
sensor log are unchanged. -/
theorem sensor_log_throttling (data : PushData) (now : ℚ) (today : String)
    (s : TenantState) (f : ℚ) (hf : data.flow_in_L_min = some f) :
    ((now - s.cache.last_sensor_log_time ≥ 300 ∨ s.cache.lv_flow_in_L_min = none ∨
        ∃ old, s.cache.lv_flow_in_L_min = some old ∧ |f - old| ≥ 1/2) →
      (esp32_status_body data now today s).2.sensor_logs =
          { sensor_id_fk := "SENS_FLOW_IN", reading_value := f, unit := "L/min" }
            :: s.sensor_logs ∧
        (esp32_status_body data now today s).2.cache.last_sensor_log_time = now ∧
        (esp32_status_body data now today s).2.cache.lv_flow_in_L_min = some f) ∧
    (¬(now - s.cache.last_sensor_log_time ≥ 300 ∨ s.cache.lv_flow_in_L_min = none ∨
        ∃ old, s.cache.lv_flow_in_L_min = some old ∧ |f - old| ≥ 1/2) →
      (esp32_status_body data now today s).2.sensor_logs = s.sensor_logs ∧
        (esp32_status_body data now today s).2.cache.last_sensor_log_time
          = s.cache.last_sensor_log_time ∧
        (esp32_status_body data now today s).2.cache.lv_flow_in_L_min
          = s.cache.lv_flow_in_L_min) := by
  constructor
  · intro hgate
    have hb : (decide (now - s.cache.last_sensor_log_time ≥ SENSOR_LOG_INTERVAL)
        || is_significant_change f s.cache.lv_flow_in_L_min FLOW_CHANGE_THRESHOLD)
          = true := by
      simp only [SENSOR_LOG_INTERVAL, FLOW_CHANGE_THRESHOLD, Bool.or_eq_true,
        decide_eq_true_eq, is_significant_change_iff]
      exact hgate
    rw [esp32_status_body_state,
      sensorStep_some data now (update_realtime_status_step now s) f hf,
      update_realtime_cache, if_pos hb]
    simp [consumptionStep_frame, batteryAlertStep_frame, leakageStep_frame,
      powerStep_frame, update_realtime_frame, update_realtime_cache]
  · intro hgate
    have hb : ¬((decide (now - s.cache.last_sensor_log_time ≥ SENSOR_LOG_INTERVAL)
        || is_significant_change f s.cache.lv_flow_in_L_min FLOW_CHANGE_THRESHOLD)
          = true) := by
      simp only [SENSOR_LOG_INTERVAL, FLOW_CHANGE_THRESHOLD, Bool.or_eq_true,
        decide_eq_true_eq, is_significant_change_iff]
      exact hgate
    rw [esp32_status_body_state,
      sensorStep_some data now (update_realtime_status_step now s) f hf,
      update_realtime_cache, if_neg hb]
    simp [consumptionStep_frame, batteryAlertStep_frame, leakageStep_frame,
      powerStep_frame, update_realtime_frame, update_realtime_cache]

/-- A push carrying only a flow reading of 3 L/min. -/
def flowPush : PushData := { emptyPush with flow_in_L_min := some 3 }

/-- Witness for C2: a fresh tenant at time 1000 passes the interval gate and
the entry is logged with both cache fields refreshed. -/
theorem sensor_log_throttling_witness :
    (esp32_status_body flowPush 1000 "2026-01-01" initTenant).2.sensor_logs =
        [{ sensor_id_fk := "SENS_FLOW_IN", reading_value := 3, unit := "L/min" }] ∧
    (esp32_status_body flowPush 1000 "2026-01-01" initTenant).2.cache.last_sensor_log_time
      = 1000 ∧
    (esp32_status_body flowPush 1000 "2026-01-01" initTenant).2.cache.lv_flow_in_L_min
      = some 3 := by
  have h := (sensor_log_throttling flowPush 1000 "2026-01-01" initTenant 3 rfl).1
    (Or.inl (by norm_num [initTenant, initial_cache]))
  simpa [initTenant, initial_cache] using h

/-- Counting alerts of one type through a cons. -/
theorem alertCount_cons (ty : String) (a : Alert) (l : List Alert) :
    alertCount ty (a :: l) =
      (if a.alert_type = ty then 1 else 0) + alertCount ty l := by
  simp only [alertCount, List.filter_cons]
  split_ifs with h <;> simp_all [Nat.add_comm]

/-- A push carrying only a leakage flag. -/
def leakPush (b : Bool) : PushData := { emptyPush with leakage_detected := some b }

/-- The push sequence of leakage values [false, true, true, true, false, true]. -/
def leakSeq : List (PushData × ℚ) :=
  [(leakPush false, 1000), (leakPush true, 1001), (leakPush true, 1002),
   (leakPush true, 1003), (leakPush false, 1004), (leakPush true, 1005)]

/-- C4: Leakage edge detection: on each push, a Leakage alert is emitted iff
the push reports leakage (default false) and the stored previous leakage state
was false; the stored state is then set to the pushed value on every push; in
particular the sequence [false, true, true, true, false, true] emits exactly 2
leakage alerts. -/
theorem leakage_edge_detection :
    (∀ (data : PushData) (now : ℚ) (today : String) (s : TenantState),
      alertCount "Leakage" (esp32_status_body data now today s).2.alerts =
        (if data.leakage_detected.getD false = true ∧
            s.cache.lv_leakage_detected.getD false = false then 1 else 0)
          + alertCount "Leakage" s.alerts ∧
      (esp32_status_body data now today s).2.cache.lv_leakage_detected =
        some (data.leakage_detected.getD false)) ∧
    alertCount "Leakage" (runPushes "2026-01-01" leakSeq initTenant).alerts = 2 := by
  constructor
  · intro data now today s
    constructor
    · rw [esp32_status_body_state, batteryAlertStep_eq, leakageStep_eq]
      simp [consumptionStep_frame, powerStep_frame, sensorStep_frame,
        update_realtime_frame, update_realtime_cache, apply_ite TenantState.alerts,
        apply_ite (alertCount "Leakage"), alertCount_cons]
      split_ifs <;> simp
    · rw [esp32_status_body_state]
      simp [consumptionStep_frame, batteryAlertStep_frame, leakageStep_lv]
  · rfl

/-- C5: Consumption aggregation: a push carrying `volume_in_L = v` updates the
per-tenant per-day record iff 1800 s have elapsed since the last consumption
update (a gate with its own timer, independent of the 300 s and 600 s log
intervals); on a qualifying push a missing record for today is created as
(v, 1 cycle) and an existing one is incremented by v and 1 cycle; otherwise
the store and the consumption timer are unchanged. -/
theorem consumption_update_gate (data : PushData) (now : ℚ) (today : String)
    (s : TenantState) (v : ℚ) (hv : data.volume_in_L = some v) :
    (now - s.cache.last_consumption_update_time ≥ 1800 →
      (esp32_status_body data now today s).2.cache.last_consumption_update_time
        = now ∧
      (consLookup today s.consumption = none →
        consLookup today (esp32_status_body data now today s).2.consumption =
          some { consumption_total := v, pump_cycles := 1 }) ∧
      (∀ r : ConsumptionRecord, consLookup today s.consumption = some r →
        consLookup today (esp32_status_body data now today s).2.consumption =
          some { consumption_total := r.consumption_total + v
                 pump_cycles := r.pump_cycles + 1 })) ∧
    (¬(now - s.cache.last_consumption_update_time ≥ 1800) →
      (esp32_status_body data now today s).2.consumption = s.consumption ∧
      (esp32_status_body data now today s).2.cache.last_consumption_update_time
        = s.cache.last_consumption_update_time) := by
  have hYcons : (batteryAlertStep data (leakageStep data (powerStep data now
      (sensorStep data now (update_realtime_status_step now s))))).consumption
        = s.consumption := by
    simp [batteryAlertStep_frame, leakageStep_frame, powerStep_frame,
      sensorStep_frame, update_realtime_frame]
  have hYtime : (batteryAlertStep data (leakageStep data (powerStep data now
      (sensorStep data now
        (update_realtime_status_step now s))))).cache.last_consumption_update_time
        = s.cache.last_consumption_update_time := by
    simp [batteryAlertStep_frame, leakageStep_frame, powerStep_frame,
      sensorStep_frame, update_realtime_cache]
  constructor
  · intro hgate
    rw [esp32_status_body_state, consumptionStep_some data now today _ v hv,
      hYtime, hYcons,
      if_pos (by simpa [CONSUMPTION_UPDATE_INTERVAL] using hgate)]
    refine ⟨by simp, ?_, ?_⟩
    · intro hnone
      simpa using update_consumption_batch_new v 1 today s.consumption hnone
    · intro r hr
      simpa using update_consumption_batch_existing v 1 today s.consumption r hr
  · intro hgate
    rw [esp32_status_body_state, consumptionStep_some data now today _ v hv,
      hYtime,
      if_neg (by simpa [CONSUMPTION_UPDATE_INTERVAL] using hgate)]
    exact ⟨hYcons, hYtime⟩

/-- A push carrying only a volume delta of 7 L. -/
def volumePush : PushData := { emptyPush with volume_in_L := some 7 }

/-- Witness for C5: a fresh tenant at time 2000 passes the 1800 s gate and a
record (7 L, 1 cycle) is created for the day. -/
theorem consumption_update_gate_witness :
    (esp32_status_body volumePush 2000 "2026-01-01"
        initTenant).2.cache.last_consumption_update_time = 2000 ∧
    consLookup "2026-01-01"
        (esp32_status_body volumePush 2000 "2026-01-01" initTenant).2.consumption =
      some { consumption_total := 7, pump_cycles := 1 } := by
  have h := (consumption_update_gate volumePush 2000 "2026-01-01" initTenant 7 rfl).1
    (by norm_num [initTenant, initial_cache])
  exact ⟨h.1, h.2.1 rfl⟩

/-- C10: the stored previous battery value consulted by the low-battery check
is refreshed exactly when a power log entry is written, i.e. when the push
carries all of `battery_voltage_V`, `current_A`, `battery_percent` and the
600 s interval-or-significance gate passes; on every other push it is left
unchanged — while the leakage state is stored anew on every push. -/
theorem battery_value_update_only_on_power_log (data : PushData) (now : ℚ)
    (today : String) (s : TenantState) :
    (∀ v c bp : ℚ, data.battery_voltage_V = some v → data.current_A = some c →
      data.battery_percent = some bp →
      ((now - s.cache.last_power_log_time ≥ 600 ∨ s.cache.lv_battery_percent = none ∨
          ∃ old, s.cache.lv_battery_percent = some old ∧ |bp - old| ≥ 5) →
        (esp32_status_body data now today s).2.cache.lv_battery_percent = some bp ∧
        (esp32_status_body data now today s).2.power_logs =
          { power_level_V := v, current_A := c, battery_percent := bp }
            :: s.power_logs) ∧
      (¬(now - s.cache.last_power_log_time ≥ 600 ∨ s.cache.lv_battery_percent = none ∨
          ∃ old, s.cache.lv_battery_percent = some old ∧ |bp - old| ≥ 5) →
        (esp32_status_body data now today s).2.cache.lv_battery_percent
          = s.cache.lv_battery_percent ∧
        (esp32_status_body data now today s).2.power_logs = s.power_logs)) ∧
    ((data.battery_voltage_V = none ∨ data.current_A = none ∨
        data.battery_percent = none) →
      (esp32_status_body data now today s).2.cache.lv_battery_percent
        = s.cache.lv_battery_percent ∧
      (esp32_status_body data now today s).2.power_logs = s.power_logs) ∧
    (esp32_status_body data now today s).2.cache.lv_leakage_detected =
      some (data.leakage_detected.getD false) := by
  refine ⟨?_, ?_, ?_⟩
  · intro v c bp hv hc hb
    constructor
    · intro hgate
      have hbool : (decide (now - s.cache.last_power_log_time ≥ POWER_LOG_INTERVAL)
          || is_significant_change bp s.cache.lv_battery_percent
              BATTERY_CHANGE_THRESHOLD) = true := by
        simp only [POWER_LOG_INTERVAL, BATTERY_CHANGE_THRESHOLD, Bool.or_eq_true,
          decide_eq_true_eq, is_significant_change_iff]
        exact hgate
      rw [esp32_status_body_state, powerStep_some data now _ v c bp hv hc hb]
      simp only [sensorStep_frame, update_realtime_cache, update_realtime_frame]
      rw [if_pos hbool]
      simp [consumptionStep_frame, batteryAlertStep_frame, leakageStep_frame,
        sensorStep_frame, update_realtime_frame, update_realtime_cache]
    · intro hgate
      have hbool : ¬((decide (now - s.cache.last_power_log_time ≥ POWER_LOG_INTERVAL)
          || is_significant_change bp s.cache.lv_battery_percent
              BATTERY_CHANGE_THRESHOLD) = true) := by
        simp only [POWER_LOG_INTERVAL, BATTERY_CHANGE_THRESHOLD, Bool.or_eq_true,
          decide_eq_true_eq, is_significant_change_iff]
        exact hgate
      rw [esp32_status_body_state, powerStep_some data now _ v c bp hv hc hb]
      simp only [sensorStep_frame, update_realtime_cache, update_realtime_frame]
      rw [if_neg hbool]
      simp [consumptionStep_frame, batteryAlertStep_frame, leakageStep_frame,
        sensorStep_frame, update_realtime_frame, update_realtime_cache]
  · intro hnone
    rw [esp32_status_body_state, powerStep_skip data now _ hnone]
    simp [consumptionStep_frame, batteryAlertStep_frame, leakageStep_frame,
      sensorStep_frame, update_realtime_frame, update_realtime_cache]
  · rw [esp32_status_body_state]
    simp [consumptionStep_frame, batteryAlertStep_frame, leakageStep_lv]

/-- A push with full power telemetry and a low battery reading. -/
def powerPushLow : PushData :=
  { emptyPush with
    battery_voltage_V := some 12
    current_A := some 1
    battery_percent := some 8 }

/-- Witness for C10: on a fresh tenant at time 1000, the power gate passes,
the log is written and the stored battery value becomes 8. -/
theorem battery_value_update_only_on_power_log_witness :
    (esp32_status_body powerPushLow 1000 "2026-01-01"
        initTenant).2.cache.lv_battery_percent = some 8 ∧
    (esp32_status_body powerPushLow 1000 "2026-01-01" initTenant).2.power_logs =
      [{ power_level_V := 12, current_A := 1, battery_percent := 8 }] := by
  have h := ((battery_value_update_only_on_power_log powerPushLow 1000 "2026-01-01"
      initTenant).1 12 1 8 rfl rfl rfl).1
    (Or.inl (by norm_num [initTenant, initial_cache]))
  simpa [initTenant, initial_cache] using h

/-- A push carrying only a low battery percentage (no voltage or current). -/
def batteryOnlyLow : PushData := { emptyPush with battery_percent := some 8 }

/-- C3 (divergence of the code from the claimed low-battery edge behaviour):
a fresh tenant whose first push carries full power telemetry with battery 8 %
(a crossing from the default 100 down to 8) emits NO Low Battery alert,
because the power-log block stores the new battery value before the alert
check reads it; and a fresh tenant pushing only battery 8 % twice emits TWO
Low Battery alerts, because without a power-log write the stored value is
never refreshed and stays at its default. -/
theorem low_battery_alert_divergence :
    alertCount "Low Battery"
        (esp32_status_body powerPushLow 1000 "2026-01-01" initTenant).2.alerts = 0 ∧
    alertCount "Low Battery"
        (runPushes "2026-01-01" [(batteryOnlyLow, 1000), (batteryOnlyLow, 1010)]
          initTenant).alerts = 2 := by
  constructor
  · rw [esp32_status_body_state, sensorStep_none powerPushLow 1000 _ rfl,
      powerStep_some powerPushLow 1000 _ 12 1 8 rfl rfl rfl, update_realtime_cache,
      if_pos (by simp [initTenant, initial_cache, is_significant_change])]
    rw [leakageStep_eq, if_neg (by simp [powerPushLow, emptyPush])]
    rw [batteryAlertStep_eq, if_neg (by norm_num [initTenant, initial_cache])]
    rw [consumptionStep_none powerPushLow 1000 "2026-01-01" _ rfl]
    simp [initTenant, alertCount, update_realtime_frame]
  · rfl

end AquaSolar
